import Mathlib

/-!
Verification of the container lifecycle manager and request-routing layer of
iserv-remote-desktop against its natural-language specification.

The Python sources are shallowly embedded as executable Lean definitions:

* `app/models/containers.py`      → `ContainerRow`, `Container.to_dict`
* `app/services/docker_manager.py`→ `find_available_port`, `create_container`,
                                    `get_container_status`
* `app/routes/proxy_routes.py`    → `is_asset_path`, `resolve_http`,
                                    `resolve_ws_root`, `read_handshake`, the
                                    forwarder retry/error mapping
Database rows become a `List ContainerRow`; the container engine and the
clock are passed in explicitly; fallible operations return sum types.
-/

/-- Lifecycle status of a registry row.  The column comment in
`app/models/containers.py` fixes the domain: creating, running, stopped,
error. -/
inductive Status where
  | creating
  | running
  | stopped
  | error
deriving DecidableEq, Repr

/-- One row of the `containers` table (`app/models/containers.py`).
Timestamps are abstract ticks (`Nat`); nullable columns are `Option`.
`proxy_path` and `desktop_type` are assigned by
`DockerManager.create_container` and read by the proxy routes. -/
structure ContainerRow where
  id : String
  userId : String
  sessionId : String
  containerId : Option String
  containerName : String
  imageName : String
  desktopType : String
  status : Status
  hostPort : Option Nat
  containerPort : Nat
  proxyPath : String
  createdAt : Nat
  startedAt : Option Nat
  stoppedAt : Option Nat
  lastAccessed : Nat
deriving DecidableEq, Repr

/-- The container registry: the rows of the `containers` table, in query
order (`Query.first()` returns the head of the matching sublist). -/
abbrev Registry := List ContainerRow

/-! ## Port allocator — `DockerManager._find_available_port` -/

/-- Ports currently considered used by `_find_available_port`
(docker_manager.py:331-339): the `host_port` of every row with
`status == 'running'` and a non-null `host_port`. -/
def used_ports (reg : Registry) : List Nat :=
  (reg.filter (fun c => decide (c.status = Status.running ∧ c.hostPort ≠ none))).filterMap
    (fun c => c.hostPort)

/-- `DockerManager._find_available_port` (docker_manager.py:317-347):
scan `range(start_port, end_port)` (defaults 7000, 8000, i.e. ports
7000–7999) and return the first port not in `used_ports`; `none` models the
`No available ports` exception. -/
def find_available_port (reg : Registry) (startPort : Nat := 7000)
    (endPort : Nat := 8000) : Option Nat :=
  (List.range' startPort (endPort - startPort)).find?
    (fun p => decide (¬ p ∈ used_ports reg))

/-- A port is held, in the sense of the spec's §4.1, by a row whose status is
`running` or `creating`. -/
def heldByActive (reg : Registry) (p : Nat) : Prop :=
  ∃ c ∈ reg, (c.status = Status.running ∨ c.status = Status.creating) ∧
    c.hostPort = some p

instance (reg : Registry) (p : Nat) : Decidable (heldByActive reg p) := by
  unfold heldByActive; infer_instance

/-- A port is held by a `running` row: the condition the code actually
scans for. -/
def heldByRunning (reg : Registry) (p : Nat) : Prop :=
  ∃ c ∈ reg, c.status = Status.running ∧ c.hostPort = some p

instance (reg : Registry) (p : Nat) : Decidable (heldByRunning reg p) := by
  unfold heldByRunning; infer_instance

/-! ## Lifecycle manager — `DockerManager.create_container` -/

/-- Desktop-type → image mapping, `create_container`
(docker_manager.py:39-43). -/
def DESKTOP_IMAGES : List (String × String) :=
  [("ubuntu-vscode", "kasmweb/vs-code:1.15.0"),
   ("ubuntu-desktop", "kasmweb/ubuntu-focal-desktop:1.15.0"),
   ("ubuntu-chromium", "kasmweb/chromium:1.15.0")]

/-- Image and effective desktop type (docker_manager.py:46-50): a known
desktop type selects its image; anything else (including an absent type)
falls back to the `KASM_IMAGE` environment value — default
`kasmweb/ubuntu-focal-desktop:1.15.0` — with type `ubuntu-desktop`. -/
def resolve_desktop (desktopType : Option String) (kasmImageEnv : Option String) :
    String × String :=
  match desktopType with
  | some t =>
    match (DESKTOP_IMAGES.find? (fun kv => kv.1 == t)) with
    | some kv => (kv.2, t)
    | none => (kasmImageEnv.getD "kasmweb/ubuntu-focal-desktop:1.15.0", "ubuntu-desktop")
  | none => (kasmImageEnv.getD "kasmweb/ubuntu-focal-desktop:1.15.0", "ubuntu-desktop")

/-- Result of `container.remove(force=True)` on the engine side:
success, `NotFound`, or any other exception. -/
inductive EngineRemove where
  | ok
  | notFound
  | failed
deriving DecidableEq, Repr

/-- External inputs of one `create_container` call: the engine's and the
environment's behaviour, the clock, and the fresh primary key. -/
structure CreateEnv where
  kasmImageEnv : Option String
  containerPortEnv : Nat
  removeResult : String → EngineRemove
  startResult : Option String
  newRowId : String
  now : Nat

/-- How `create_container` can fail: engine-side cleanup of a stale row
failed (docker_manager.py:93-96), the port range was exhausted
(docker_manager.py:347), or `containers.run` raised
(docker_manager.py:161-186). -/
inductive CreateErr where
  | cleanupFailed
  | exhausted
  | engineStart
deriving DecidableEq, Repr

inductive CreateResult where
  | ok (c : ContainerRow)
  | err (e : CreateErr)
deriving DecidableEq, Repr

/-- Observable actions of `create_container`, in program order, used to
state ordering properties (engine removal before registry delete, insert
before port scan, …). -/
inductive Event where
  | engineRemove (cid : String)
  | dbDelete (rowId : String)
  | dbInsertCreating (rowId : String)
  | scanPorts
  | engineStart (name : String)
  | dbCommitRunning (rowId : String)
  | dbMarkError (rowId : String)
deriving DecidableEq, Repr

/-- The triple filter of the `existing` query (docker_manager.py:62-66):
`session_id`, `user_id`, `desktop_type`. -/
def matchesTriple (userId sessionId desktopType : String) (c : ContainerRow) : Bool :=
  decide (c.sessionId = sessionId ∧ c.userId = userId ∧ c.desktopType = desktopType)

/-- Replace the fields the final commit writes (docker_manager.py:148-153). -/
def commitRunning (reg : Registry) (rowId instId : String) (port now : Nat) : Registry :=
  reg.map (fun c =>
    if c.id = rowId then
      { c with containerId := some instId, hostPort := some port,
               status := Status.running, startedAt := some now }
    else c)

/-- Mark a row `error` (docker_manager.py:166 / 179). -/
def markError (reg : Registry) (rowId : String) : Registry :=
  reg.map (fun c => if c.id = rowId then { c with status := Status.error } else c)

/-- The `creating` row committed first by `create_container`
(docker_manager.py:107-119). -/
def newRowOf (userId sessionId dt kasmImage containerName proxyPath : String)
    (env : CreateEnv) : ContainerRow :=
  { id := env.newRowId, userId := userId, sessionId := sessionId,
    containerId := none, containerName := containerName,
    imageName := kasmImage, desktopType := dt, status := Status.creating,
    hostPort := none, containerPort := env.containerPortEnv,
    proxyPath := proxyPath, createdAt := env.now, startedAt := none,
    stoppedAt := none, lastAccessed := env.now }

/-- Phase 2 of `create_container` (docker_manager.py:107-159 and the
exception handlers): insert a `creating` row, scan for a port, start the
engine instance, and commit `running`; on failure mark the row `error`. -/
def create_fresh (reg : Registry) (userId sessionId dt kasmImage : String)
    (containerName proxyPath : String) (env : CreateEnv) (evs : List Event) :
    CreateResult × Registry × List Event :=
  let newRow : ContainerRow :=
    newRowOf userId sessionId dt kasmImage containerName proxyPath env
  let reg1 := reg ++ [newRow]
  let evs1 := evs ++ [Event.dbInsertCreating newRow.id]
  match find_available_port reg1 with
  | none =>
    (CreateResult.err CreateErr.exhausted, markError reg1 newRow.id,
      evs1 ++ [Event.scanPorts, Event.dbMarkError newRow.id])
  | some port =>
    match env.startResult with
    | none =>
      (CreateResult.err CreateErr.engineStart, markError reg1 newRow.id,
        evs1 ++ [Event.scanPorts, Event.engineStart containerName,
                 Event.dbMarkError newRow.id])
    | some instId =>
      let row' := { newRow with
        containerId := some instId,
        hostPort := some port,
        status := Status.running,
        startedAt := some env.now }
      (CreateResult.ok row', commitRunning reg1 newRow.id instId port env.now,
        evs1 ++ [Event.scanPorts, Event.engineStart containerName,
                 Event.dbCommitRunning newRow.id])

/-- `DockerManager.create_container` (docker_manager.py:23-186).
If a row exists for (user, session, effective type): return it when
`running`; when in `error`/`stopped`/`creating`, remove the engine instance
(abort on failure, keeping the row), delete the registry row, then fall
through to fresh creation.  `username` feeds the generated
`container_name` and `proxy_path` (docker_manager.py:55-58). -/
def create_container (reg : Registry) (userId sessionId username : String)
    (desktopType : Option String) (env : CreateEnv) :
    CreateResult × Registry × List Event :=
  let p := resolve_desktop desktopType env.kasmImageEnv
  let kasmImage := p.1
  let dt := p.2
  let containerName := "kasm-" ++ username ++ "-" ++ dt ++ "-" ++ (sessionId.take 8)
  let proxyPath := username ++ "-" ++ dt
  match reg.find? (matchesTriple userId sessionId dt) with
  | some existing =>
    if existing.status = Status.running then
      (CreateResult.ok existing, reg, [])
    else if existing.status = Status.error ∨ existing.status = Status.stopped ∨
        existing.status = Status.creating then
      match existing.containerId with
      | some cid =>
        match env.removeResult cid with
        | EngineRemove.failed =>
          (CreateResult.err CreateErr.cleanupFailed, reg, [Event.engineRemove cid])
        | _ =>
          let reg0 := reg.filter (fun c => decide (¬ c.id = existing.id))
          create_fresh reg0 userId sessionId dt kasmImage containerName
            proxyPath env [Event.engineRemove cid, Event.dbDelete existing.id]
      | none =>
        let reg0 := reg.filter (fun c => decide (¬ c.id = existing.id))
        create_fresh reg0 userId sessionId dt kasmImage containerName
          proxyPath env [Event.dbDelete existing.id]
    else
      create_fresh reg userId sessionId dt kasmImage containerName
        proxyPath env []
  | none =>
    create_fresh reg userId sessionId dt kasmImage containerName
      proxyPath env []

/-! ## Reconciliation — `DockerManager.get_container_status` -/

/-- `DockerManager.get_container_status` (docker_manager.py:253-294),
restricted to its registry effect.  `inspected` is the engine's report:
`none` models the `NotFound` exception of `containers.get`, `some ds` the
docker status string.  Rows without a `container_id` are returned as-is
(docker_manager.py:264-265); `NotFound` sets `stopped` without touching
`stopped_at` (docker_manager.py:287-289); a divergence between docker and
the row otherwise updates the row (docker_manager.py:270-278). -/
def get_container_status (row : ContainerRow) (inspected : Option String)
    (now : Nat) : ContainerRow :=
  match row.containerId with
  | none => row
  | some _ =>
    match inspected with
    | none => { row with status := Status.stopped }
    | some ds =>
      if ds = "running" ∧ row.status ≠ Status.running then
        { row with status := Status.running, startedAt := some now }
      else if (ds = "exited" ∨ ds = "dead") ∧ row.status ≠ Status.stopped then
        { row with status := Status.stopped, stoppedAt := some now }
      else row

/-! ## Serialization — `Container.to_dict` -/

/-- Values of the dictionary built by `Container.to_dict`. -/
inductive DictVal where
  | str (s : String)
  | nat (n : Nat)
  | null
deriving DecidableEq, Repr

/-- Encode an optional value the way `to_dict` serializes nullable
columns (`x.isoformat() if x else None`). -/
def optVal (f : α → DictVal) : Option α → DictVal
  | some a => f a
  | none => DictVal.null

/-- `Container.to_dict` (containers.py:51-62): the serialized public shape
of a container, as an ordered key/value list. -/
def Container.to_dict (c : ContainerRow) : List (String × DictVal) :=
  [("id", DictVal.str c.id),
   ("container_id", optVal DictVal.str c.containerId),
   ("container_name", DictVal.str c.containerName),
   ("status", DictVal.str (match c.status with
     | Status.creating => "creating"
     | Status.running => "running"
     | Status.stopped => "stopped"
     | Status.error => "error")),
   ("host_port", optVal DictVal.nat c.hostPort),
   ("created_at", DictVal.nat c.createdAt),
   ("started_at", optVal DictVal.nat c.startedAt),
   ("last_accessed", DictVal.nat c.lastAccessed)]

/-! ## Route resolver — `app/routes/proxy_routes.py` -/

/-- Asset path prefixes (proxy_routes.py:40). -/
def ASSET_PREFIXES : List String :=
  ["assets", "js", "css", "fonts", "images", "static", "dist", "build",
   "locale", "app"]

/-- Asset file extensions (proxy_routes.py:43). -/
def ASSET_EXTENSIONS : List String :=
  [".json", ".css", ".js", ".svg", ".png", ".jpg", ".jpeg", ".gif", ".woff",
   ".woff2", ".ttf", ".eot", ".ico", ".oga", ".mp3", ".wav"]

/-- `is_asset_path` (proxy_routes.py:46-74): the first `/`-separated
component either equals a known asset prefix or carries an asset file
extension. -/
def is_asset_path (path : String) : Bool :=
  let firstComponent := path.toList.takeWhile (fun ch => ch ≠ '/')
  ASSET_PREFIXES.any (fun p => firstComponent == p.toList) ||
    ASSET_EXTENSIONS.any (fun e => e.toList.isSuffixOf firstComponent)

/-- Characters `[^/?#]` accepted inside the captured segment of the
Referer regex `/desktop/([^/?#]+)` (proxy_routes.py:130, 382). -/
def isSegChar (ch : Char) : Bool :=
  ch ≠ '/' && ch ≠ '?' && ch ≠ '#'

/-- The literal part of the Referer regex. -/
def desktopPat : List Char := "/desktop/".toList

/-- `re.search(r'/desktop/([^/?#]+)', s)` on the character list of `s`:
the captured group at the earliest position where the whole pattern
matches (the `+` takes the maximal run of segment characters). -/
def searchDesktopSeg : List Char → Option (List Char)
  | [] => none
  | ch :: rest =>
    if desktopPat.isPrefixOf (ch :: rest) then
      let seg := ((ch :: rest).drop desktopPat.length).takeWhile isSegChar
      if seg.isEmpty then searchDesktopSeg rest else some seg
    else searchDesktopSeg rest

/-- Modelled from the spec: `Container.get_by_proxy_path` is called
throughout `app/routes/proxy_routes.py` but its definition is absent from
the sources (`app/models/containers.py` has no `proxy_path` column and no
such classmethod; only callers and a `hasattr` check in
`backend/scripts/test_proxy_implementation.py` exist).  The spec's §4.3
resolves a segment "directly by `proxy_path`" to a `running` container,
matching the two sibling lookups that do appear in the sources
(`backend/app/routes/apache_api_routes.py:30-33` and
`backend/app/routes/container_proxy_routes.py:40-43`): first row with
this `proxy_path` and status `running`. -/
def get_by_proxy_path (reg : Registry) (p : String) : Option ContainerRow :=
  reg.find? (fun c => decide (c.proxyPath = p ∧ c.status = Status.running))

/-- One inbound request to `/desktop/<proxy_path>[/<subpath>]`.  Empty
`referer` models an absent header (`request.headers.get('Referer', '')`);
`hint` is the sticky `session['current_container']` value. -/
structure HttpReq where
  proxyPath : String
  subpath : String
  referer : String
  hint : Option String
deriving Repr

/-- Outcome of the resolution phase of `proxy_to_container`
(proxy_routes.py:114-177): 404, 500 for a port-less row, or a resolved
container together with the effective subpath forwarded to it and the
sticky hint stored back into the session. -/
inductive HttpResolve where
  | notFound
  | noPort (c : ContainerRow)
  | resolved (c : ContainerRow) (effSubpath : String) (newHint : Option String)
deriving DecidableEq, Repr

/-- The Referer fallback of `proxy_to_container` (proxy_routes.py:123-144):
extract the segment embedded in the Referer and look it up, provided the
segment is not itself asset-like. -/
def refererLookup (reg : Registry) (referer : String) : Option ContainerRow :=
  if referer = "" then none
  else
    match searchDesktopSeg referer.toList with
    | none => none
    | some seg =>
      let segStr := String.mk seg
      if is_asset_path segStr then none
      else get_by_proxy_path reg segStr

/-- Resolution phase of `proxy_to_container` (proxy_routes.py:106-177).
The direct `proxy_path` lookup always runs first; the Referer and sticky
fallbacks only run when it misses and the segment is asset-like; a hit via
a fallback prepends the claimed segment to the forwarded subpath
(proxy_routes.py:141-144, 156-159); the sticky hint is rewritten only for
non-asset requests (proxy_routes.py:171-173). -/
def resolve_http (reg : Registry) (req : HttpReq) : HttpResolve :=
  let isPotentialAsset := is_asset_path req.proxyPath
  let direct := get_by_proxy_path reg req.proxyPath
  let recombined := if req.subpath = "" then req.proxyPath
    else req.proxyPath ++ "/" ++ req.subpath
  let found : Option (ContainerRow × String) :=
    match direct with
    | some c => some (c, req.subpath)
    | none =>
      if isPotentialAsset then
        match refererLookup reg req.referer with
        | some c => some (c, recombined)
        | none =>
          match req.hint with
          | some h =>
            if h = "" then none
            else
              match get_by_proxy_path reg h with
              | some c => some (c, recombined)
              | none => none
          | none => none
      else none
  match found with
  | none => HttpResolve.notFound
  | some (c, eff) =>
    if c.hostPort = none then HttpResolve.noPort c
    else
      HttpResolve.resolved c eff
        (if ¬ isPotentialAsset then some c.proxyPath else req.hint)


/-- Boolean infix test on character lists (`b"x" in y` / `'x' in y` in the
Python sources). -/
def infixB (pat l : List Char) : Bool := decide (pat <:+: l)

/-- The subdomain suffix recognized by the `/websockify` handlers
(proxy_routes.py:357). -/
def subdomainPat : List Char := ".desktop.hub.mdg-hamburg.de".toList

/-- `s.split(pat)[0]`: the characters before the first occurrence of
`pat`, the whole list when `pat` does not occur. -/
def beforeFirst (pat : List Char) : List Char → List Char
  | [] => []
  | ch :: rest =>
    if pat.isPrefixOf (ch :: rest) then []
    else ch :: beforeFirst pat rest

/-- Outcome of the resolution phase of `proxy_websocket_root`
(proxy_routes.py:331-449): 400 for an oversized Referer, 404/close when no
container is found, 500 for a port-less row, otherwise the resolved
container. -/
inductive WsResolve where
  | badRequest
  | notFound
  | noPort (c : ContainerRow)
  | resolved (c : ContainerRow)
deriving DecidableEq, Repr

/-- The Host-subdomain lookup of `proxy_websocket_root`
(proxy_routes.py:355-370): when the Host header contains the subdomain
suffix, the label before it — unless empty or `desktop` — is looked up as
a `proxy_path`. -/
def subdomainLookup (reg : Registry) (host : String) : Option ContainerRow :=
  if host ≠ "" ∧ infixB subdomainPat host.toList then
    let sub := String.mk (beforeFirst subdomainPat host.toList)
    if sub ≠ "" ∧ sub ≠ "desktop" then get_by_proxy_path reg sub
    else none
  else none

/-- Resolution phase of `proxy_websocket_root` (proxy_routes.py:353-449).
PRIORITY 1 is the Host subdomain; the Referer block then runs whenever a
Referer is present — when it embeds a non-asset segment, its lookup result
is assigned to `container` unconditionally (proxy_routes.py:393-395), so
it replaces any subdomain hit; the sticky-session lookup runs only when
`container` is still unset (proxy_routes.py:408-417). -/
def resolve_ws_root (reg : Registry) (host referer : String)
    (hint : Option String) : WsResolve :=
  let c0 := subdomainLookup reg host
  let afterReferer : Except Unit (Option ContainerRow) :=
    if referer = "" then Except.ok c0
    else if referer.length > 2048 then Except.error ()
    else
      match searchDesktopSeg referer.toList with
      | none => Except.ok c0
      | some seg =>
        let segStr := String.mk seg
        if segStr.length > 255 then Except.error ()
        else if ¬ is_asset_path segStr then
          Except.ok (get_by_proxy_path reg segStr)
        else Except.ok c0
  match afterReferer with
  | Except.error _ => WsResolve.badRequest
  | Except.ok c1 =>
    let c2 :=
      match c1 with
      | some c => some c
      | none =>
        match hint with
        | some h => if h = "" then none else get_by_proxy_path reg h
        | none => none
    match c2 with
    | none => WsResolve.notFound
    | some c =>
      if c.hostPort = none then WsResolve.noPort c
      else WsResolve.resolved c

/-! ## WebSocket tunnel handshake — `_proxy_websocket_with_gevent` -/

/-- `MAX_HANDSHAKE_SIZE` (proxy_routes.py:594). -/
def MAX_HANDSHAKE_SIZE : Nat := 8192

/-- Result of the manual backend handshake (proxy_routes.py:592-629).
The relay greenlets are spawned only in the `accepted` case
(proxy_routes.py:661-663); every other constructor carries the close code
sent to the client. -/
inductive HandshakeResult where
  | closeBackendFailed
  | closeTooLarge
  | rejected
  | accepted (response : List Char)
deriving DecidableEq, Repr

/-- The header terminator the read loop waits for. -/
def crlfcrlf : List Char := ['\r', '\n', '\r', '\n']

/-- Status-line acceptance check (proxy_routes.py:616-626): split the
response at the first CRLF and test whether the literal `101` occurs
anywhere in that first line. -/
def checkUpgradeStatus (response : List Char) : HandshakeResult :=
  let statusLine := beforeFirst ['\r', '\n'] response
  if infixB ("101".toList) statusLine then HandshakeResult.accepted response
  else HandshakeResult.rejected

/-- The handshake read loop (proxy_routes.py:595-626): while the
terminator has not arrived, read the next chunk — an empty chunk (or no
further chunk: the backend closed) aborts with close 1011; a response
exceeding `MAX_HANDSHAKE_SIZE` aborts with close 1009 (handshake too
large); once the terminator is present the status line decides. -/
def read_handshake (chunks : List (List Char)) (acc : List Char) :
    HandshakeResult :=
  if infixB crlfcrlf acc then checkUpgradeStatus acc
  else
    match chunks with
    | [] => HandshakeResult.closeBackendFailed
    | chunk :: rest =>
      if chunk.isEmpty then HandshakeResult.closeBackendFailed
      else
        let acc2 := acc ++ chunk
        if acc2.length > MAX_HANDSHAKE_SIZE then HandshakeResult.closeTooLarge
        else read_handshake rest acc2

/-- The HTTP status code of a response status line, for stating what a
"non-101 status" is: the token after the first space (spec-side reading of
`HTTP/1.1 NNN reason`; the source never parses it, which is the point of
claim C8). -/
def specStatusCode (statusLine : List Char) : List Char :=
  ((statusLine.dropWhile (fun ch => ch ≠ ' ')).drop 1).takeWhile
    (fun ch => ch ≠ ' ')

/-! ## HTTP forwarder retry tiers and error mapping -/

/-- `DEFAULT_RETRIES` (proxy_routes.py:24). -/
def DEFAULT_RETRIES : Nat := 3

/-- The generic transient tier's backoff delays in tenths of a second:
`DEFAULT_BACKOFF_FACTOR = 0.3` gives 0.3 s, 0.6 s, 1.2 s
(proxy_routes.py:25 and its comment). -/
def genericBackoffTenths : List Nat := [3, 6, 12]

/-- Modelled from the spec: the distinct "still booting" retry tier
(`CONTAINER_STARTUP_RETRIES`, `CONTAINER_STARTUP_BACKOFF`,
`is_container_startup_error`) is absent from `app/routes/proxy_routes.py`;
only its test, `scripts/test_connection_retry.py`, is in the sources.  The
test fixes 5 attempts with exponential backoff 2 s, 4 s, 8 s, 16 s and a
total of ≈30 s, matching the spec's §4.4. -/
def CONTAINER_STARTUP_RETRIES : Nat := 5

/-- Modelled from the spec: backoff delays of the booting tier in tenths
of a second (2 s, 4 s, 8 s, 16 s per `scripts/test_connection_retry.py`,
summing to the spec's ≈30 s). -/
def startupBackoffTenths : List Nat :=
  (List.range (CONTAINER_STARTUP_RETRIES - 1)).map (fun i => 20 * 2 ^ i)

/-- Outcome of one forwarded attempt against the backend, as
distinguished by the handlers of proxy_routes.py:252-279: success, the
connection-reset-during-handshake signature of a booting container, an
ordinary connection error, a timeout, or any other request error. -/
inductive Attempt where
  | success (statusCode : Nat)
  | connReset
  | connError
  | timeout
  | otherError
deriving DecidableEq, Repr

/-- What the forwarder returns to the client. -/
inductive ProxyResult where
  | ok (statusCode : Nat)
  | notRunning503
  | starting503
  | gateway502
  | timeout504
deriving DecidableEq, Repr

/-- The probe run when connection errors persist (proxy_routes.py:254-270):
`get_container_status` is consulted and anything other than `running`
yields the 503 "not running" page; otherwise — including a failing probe —
the 503 "container may still be starting up" page. -/
def probe503 (probedStatus : Option Status) : ProxyResult :=
  match probedStatus with
  | some st => if st ≠ Status.running then ProxyResult.notRunning503
               else ProxyResult.starting503
  | none => ProxyResult.starting503

/-- Modelled from the spec: the booting-tier loop around the forwarded
request (absent from `app/routes/proxy_routes.py`, tested by
`scripts/test_connection_retry.py`).  Successive attempts are consumed
while they show the connection-reset signature; on exhaustion the live
status is probed; the terminal outcomes map as in
proxy_routes.py:252-279 — plain connection errors probe immediately,
timeouts give 504, other request errors 502. -/
def forward_with_startup_retry (attempts : List Attempt)
    (probedStatus : Option Status) : ProxyResult :=
  match attempts with
  | [] => probe503 probedStatus
  | a :: rest =>
    match a with
    | Attempt.success sc => ProxyResult.ok sc
    | Attempt.connReset => forward_with_startup_retry rest probedStatus
    | Attempt.connError => probe503 probedStatus
    | Attempt.timeout => ProxyResult.timeout504
    | Attempt.otherError => ProxyResult.gateway502

/-- The full booting tier: at most `CONTAINER_STARTUP_RETRIES` attempts
are made before the tier exhausts. -/
def forward_request (attempts : Nat → Attempt) (probedStatus : Option Status) :
    ProxyResult :=
  forward_with_startup_retry
    ((List.range CONTAINER_STARTUP_RETRIES).map attempts) probedStatus

/-! ## Read-path registry effects (`last_accessed`) -/

/-- Observable actions of a read-path handler, in program order. -/
inductive AccessEvent where
  | writeLastAccessed (rowId : String)
  | contactBackend
  | reconcile (rowId : String)
deriving DecidableEq, Repr

/-- The `last_accessed` write the read path performs
(proxy_routes.py:175-177, 451-453, 763-765). -/
def touch (reg : Registry) (rowId : String) (now : Nat) : Registry :=
  reg.map (fun c => if c.id = rowId then { c with lastAccessed := now } else c)

/-- Registry effect of `proxy_to_container` on a resolved container
(proxy_routes.py:175-279): `last_accessed` is committed before the backend
request is issued; when the request ends in a connection error, the
handler probes `get_container_status`, whose reconciliation writes back
into the same row (a probe that itself raises leaves the row unchanged and
is not modelled).  `outcome` is the terminal outcome of the forwarded
request, `inspected` the engine's report used by the probe. -/
def http_forward_effects (reg : Registry) (c : ContainerRow) (now : Nat)
    (outcome : Attempt) (inspected : Option String) :
    Registry × List AccessEvent :=
  let reg1 := touch reg c.id now
  let evs := [AccessEvent.writeLastAccessed c.id, AccessEvent.contactBackend]
  match outcome with
  | Attempt.connReset =>
    (reg1.map (fun r => if r.id = c.id then get_container_status r inspected now else r),
      evs ++ [AccessEvent.reconcile c.id])
  | Attempt.connError =>
    (reg1.map (fun r => if r.id = c.id then get_container_status r inspected now else r),
      evs ++ [AccessEvent.reconcile c.id])
  | _ => (reg1, evs)

/-- Registry effect of the WebSocket handlers on a resolved container
(proxy_routes.py:451-453 and 763-765): the `last_accessed` commit before
the tunnel is opened is their only registry write, whatever happens to the
tunnel afterwards. -/
def ws_touch_effects (reg : Registry) (c : ContainerRow) (now : Nat) :
    Registry × List AccessEvent :=
  (touch reg c.id now,
    [AccessEvent.writeLastAccessed c.id, AccessEvent.contactBackend])

/-- A row with every field as it is, except the `last_accessed` column
normalized away: two registries agree under `eraseLastAccessed` exactly
when they differ at most in `last_accessed`. -/
def eraseLastAccessed (c : ContainerRow) : ContainerRow :=
  { c with lastAccessed := 0 }

/-! ## Concurrent `create_container` calls — interleaving model -/

/-- The two concurrent callers. -/
inductive Tid where
  | ta
  | tb
deriving DecidableEq, Repr

def Tid.other : Tid → Tid
  | Tid.ta => Tid.tb
  | Tid.tb => Tid.ta

/-- Joint state of two in-flight `create_container` calls: the shared
registry, each caller's program counter (0 = before the `creating` insert
of docker_manager.py:107-119, 1 = inserted, 2 = port scanned, 3 =
committed `running`), the port the scan returned, and the row-level
`SELECT ... FOR UPDATE` locks currently held (docker_manager.py:333-336). -/
structure Sys where
  reg : Registry
  pcA : Nat
  portA : Option Nat
  pcB : Nat
  portB : Option Nat
  locks : List (String × Tid)
deriving Repr

def pcOf (s : Sys) : Tid → Nat
  | Tid.ta => s.pcA
  | Tid.tb => s.pcB

def portOf (s : Sys) : Tid → Option Nat
  | Tid.ta => s.portA
  | Tid.tb => s.portB

def setThread (s : Sys) (t : Tid) (pc : Nat) (port : Option Nat) : Sys :=
  match t with
  | Tid.ta => { s with pcA := pc, portA := port }
  | Tid.tb => { s with pcB := pc, portB := port }

/-- The rows `_find_available_port`'s `SELECT ... FOR UPDATE` returns and
therefore locks (docker_manager.py:333-336): `running` rows with a
non-null `host_port`.  A `creating` row is never in this set. -/
def lockedRows (reg : Registry) : List String :=
  (reg.filter (fun c => decide (c.status = Status.running ∧ c.hostPort ≠ none))).map
    (fun c => c.id)

/-- The `creating` row caller `t` inserts (docker_manager.py:107-119),
for two distinct (user, session, image) triples. -/
def rowFor : Tid → ContainerRow
  | Tid.ta =>
    { id := "row-alice", userId := "u-alice", sessionId := "sess-alice",
      containerId := none, containerName := "kasm-alice-ubuntu-desktop-sess-ali",
      imageName := "kasmweb/ubuntu-focal-desktop:1.15.0",
      desktopType := "ubuntu-desktop", status := Status.creating,
      hostPort := none, containerPort := 6901,
      proxyPath := "alice-ubuntu-desktop", createdAt := 0, startedAt := none,
      stoppedAt := none, lastAccessed := 0 }
  | Tid.tb =>
    { id := "row-bob", userId := "u-bob", sessionId := "sess-bob",
      containerId := none, containerName := "kasm-bob-ubuntu-desktop-sess-bob",
      imageName := "kasmweb/ubuntu-focal-desktop:1.15.0",
      desktopType := "ubuntu-desktop", status := Status.creating,
      hostPort := none, containerPort := 6901,
      proxyPath := "bob-ubuntu-desktop", createdAt := 0, startedAt := none,
      stoppedAt := none, lastAccessed := 0 }

/-- Interleaved execution of the two calls.  `insert` is the committed
`creating`-row insert (the commit of docker_manager.py:119 ends that
transaction, releasing nothing because none is held).  `scan` is
`_find_available_port`: it may fire only when no row of its result set is
locked by the other caller, and acquires the locks on exactly that set —
on a registry with no running rows the set is empty, so nothing is locked
and nothing blocks.  `commitOk` is the commit of
docker_manager.py:148-153, which publishes the port and releases the
caller's locks. -/
inductive CreateStep : Sys → Sys → Prop where
  | insert (t : Tid) (s : Sys) :
      pcOf s t = 0 →
      CreateStep s (setThread { s with reg := s.reg ++ [rowFor t] } t 1 none)
  | scan (t : Tid) (s : Sys) :
      pcOf s t = 1 →
      (∀ rid ∈ lockedRows s.reg, ¬ (rid, t.other) ∈ s.locks) →
      CreateStep s
        (setThread
          { s with locks := s.locks ++ (lockedRows s.reg).map (fun rid => (rid, t)) }
          t 2 (find_available_port s.reg))
  | commitOk (t : Tid) (s : Sys) (p : Nat) :
      pcOf s t = 2 →
      portOf s t = some p →
      CreateStep s
        (setThread
          { s with
              reg := commitRunning s.reg (rowFor t).id ("inst-" ++ (rowFor t).id) p 1,
              locks := s.locks.filter (fun e => decide (e.2 ≠ t)) }
          t 3 (some p))

/-- Both callers not yet started, empty registry (a fresh deployment:
no running containers). -/
def initSys : Sys :=
  { reg := [], pcA := 0, portA := none, pcB := 0, portB := none, locks := [] }

/-- Reachability under interleaved steps. -/
def SysReaches : Sys → Sys → Prop := Relation.ReflTransGen CreateStep

/-- Two distinct rows in {creating, running} hold the same port: the
violation the spec's §4.1/§8 invariant rules out. -/
def dupActivePort (reg : Registry) : Prop :=
  ∃ c1 ∈ reg, ∃ c2 ∈ reg,
    c1.id ≠ c2.id ∧
    (c1.status = Status.running ∨ c1.status = Status.creating) ∧
    (c2.status = Status.running ∨ c2.status = Status.creating) ∧
    c1.hostPort ≠ none ∧ c1.hostPort = c2.hostPort

instance (reg : Registry) : Decidable (dupActivePort reg) := by
  unfold dupActivePort; infer_instance

/-! ## Sample rows for concrete evaluations -/

/-- A concrete registry row with the given key, routing and lifecycle
fields, used to evaluate the embedded operations at specific inputs. -/
def sampleRow (rid uid sid dt pp : String) (st : Status) (cid : Option String)
    (hp : Option Nat) : ContainerRow :=
  { id := rid, userId := uid, sessionId := sid, containerId := cid,
    containerName := "kasm-" ++ pp ++ "-" ++ sid, imageName := "img",
    desktopType := dt, status := st, hostPort := hp, containerPort := 6901,
    proxyPath := pp, createdAt := 0, startedAt := none, stoppedAt := none,
    lastAccessed := 0 }

/-- At most one registry row (by primary key) for a (user, session,
desktop-type) triple: any two rows matching the triple share their id. -/
def atMostOneTriple (reg : Registry) (u sid dt : String) : Prop :=
  ∀ c1 ∈ reg, ∀ c2 ∈ reg,
    matchesTriple u sid dt c1 = true → matchesTriple u sid dt c2 = true →
      c1.id = c2.id

/-- Primary-key integrity: equal ids mean the same row. -/
def keyIntegrity (reg : Registry) : Prop :=
  ∀ c1 ∈ reg, ∀ c2 ∈ reg, c1.id = c2.id → c1 = c2

instance (reg : Registry) (u sid dt : String) :
    Decidable (atMostOneTriple reg u sid dt) := by
  unfold atMostOneTriple; infer_instance

instance (reg : Registry) : Decidable (keyIntegrity reg) := by
  unfold keyIntegrity; infer_instance

/-! # Theorems -/

/-! ## Port accounting lemmas -/

theorem mem_used_ports (reg : Registry) (p : Nat) :
    p ∈ used_ports reg ↔ heldByRunning reg p := by
  unfold used_ports heldByRunning
  simp only [List.mem_filterMap, List.mem_filter, decide_eq_true_eq]
  constructor
  · rintro ⟨c, ⟨hc, hst, _⟩, hp⟩
    exact ⟨c, hc, hst, hp⟩
  · rintro ⟨c, hc, hst, hp⟩
    exact ⟨c, ⟨hc, hst, by simp [hp]⟩, hp⟩

theorem used_ports_eq_active (reg : Registry)
    (hC : ∀ c ∈ reg, c.status = Status.creating → c.hostPort = none) (p : Nat) :
    p ∈ used_ports reg ↔ heldByActive reg p := by
  rw [mem_used_ports]
  unfold heldByRunning heldByActive
  constructor
  · rintro ⟨c, hc, hst, hp⟩
    exact ⟨c, hc, Or.inl hst, hp⟩
  · rintro ⟨c, hc, hst | hst, hp⟩
    · exact ⟨c, hc, hst, hp⟩
    · exact absurd (hC c hc hst) (by simp [hp])

theorem used_ports_append (reg1 reg2 : Registry) :
    used_ports (reg1 ++ reg2) = used_ports reg1 ++ used_ports reg2 := by
  simp [used_ports]

theorem used_ports_creating_nil (c : ContainerRow)
    (h : c.status = Status.creating) : used_ports [c] = [] := by
  simp [used_ports, h]

theorem find_available_port_append_creating (reg : Registry) (c : ContainerRow)
    (h : c.status = Status.creating) (sp ep : Nat) :
    find_available_port (reg ++ [c]) sp ep = find_available_port reg sp ep := by
  simp [find_available_port, used_ports_append, used_ports_creating_nil c h]

/-! ## Claim C2 — port allocator -/

/-- Claim C2 fails as stated: quantified over *every* registry state, the
allocator does not skip a port held by a `creating` row.  On the registry
consisting of one `creating` row holding port 7000,
`_find_available_port` returns 7000 even though 7000 is held by a row in
{running, creating} (its scan filters on `status == 'running'` only,
docker_manager.py:333-336). -/
theorem c2_counterexample_creating_holder :
    find_available_port
        [sampleRow "r1" "u1" "s1" "ubuntu-desktop" "u1-ubuntu-desktop"
          Status.creating (some "cid1") (some 7000)] = some 7000 ∧
      heldByActive
        [sampleRow "r1" "u1" "s1" "ubuntu-desktop" "u1-ubuntu-desktop"
          Status.creating (some "cid1") (some 7000)] 7000 := by
  constructor
  · decide
  · decide

/-- Claim C2 (amended): on every registry state in which no `creating` row
holds a port — which is every state this code produces, since
`create_container` assigns `host_port` only together with the transition
to `running` (docker_manager.py:148-153) — `_find_available_port` returns
the lowest port of 7000–7999 not held by any row with status `running` or
`creating`; it fails exactly when every port of the range is so held, and
that failure makes `create_container` return the exhaustion error without
a second scan. -/
theorem c2_allocator_lowest (reg : Registry)
    (hC : ∀ c ∈ reg, c.status = Status.creating → c.hostPort = none) :
    (∀ p, find_available_port reg = some p →
      7000 ≤ p ∧ p < 8000 ∧ ¬ heldByActive reg p ∧
        ∀ q, 7000 ≤ q → q < p → heldByActive reg q) ∧
    (find_available_port reg = none →
      ∀ q, 7000 ≤ q → q < 8000 → heldByActive reg q) ∧
    (∀ u sid dt img cn pp env evs, find_available_port reg = none →
      (create_fresh reg u sid dt img cn pp env evs).1 =
        CreateResult.err CreateErr.exhausted) := by
  refine ⟨?_, ?_, ?_⟩
  · intro p hp
    unfold find_available_port at hp
    rw [List.find?_range'_eq_some] at hp
    obtain ⟨hpred, hmem, hlow⟩ := hp
    rw [List.mem_range'_1] at hmem
    refine ⟨by omega, by omega, ?_, ?_⟩
    · have := of_decide_eq_true hpred
      rw [used_ports_eq_active reg hC] at this
      exact this
    · intro q h1 h2
      have := hlow q h1 h2
      simp only [Bool.not_eq_eq_eq_not, Bool.not_true, decide_eq_false_iff_not,
        not_not] at this
      rw [used_ports_eq_active reg hC] at this
      exact this
  · intro hnone q h1 h2
    unfold find_available_port at hnone
    rw [List.find?_range'_eq_none] at hnone
    have := hnone q h1 (by omega)
    simp only [Bool.not_eq_eq_eq_not, Bool.not_true, decide_eq_false_iff_not,
      not_not] at this
    rw [used_ports_eq_active reg hC] at this
    exact this
  · intro u sid dt img cn pp env evs hnone
    have hz : find_available_port (reg ++ [newRowOf u sid dt img cn pp env]) = none := by
      rw [find_available_port_append_creating reg _ rfl, hnone]
    simp [create_fresh, hz]

/-- Witness for `c2_allocator_lowest` at a concrete registry holding port
7000 with a `running` row: port 7001 is allocated, is itself unheld, and
the skipped port 7000 is held. -/
theorem c2_allocator_lowest_witness :
    ¬ heldByActive
        [sampleRow "r1" "u1" "s1" "ubuntu-desktop" "u1-ubuntu-desktop"
          Status.running (some "cid1") (some 7000)] 7001 ∧
      heldByActive
        [sampleRow "r1" "u1" "s1" "ubuntu-desktop" "u1-ubuntu-desktop"
          Status.running (some "cid1") (some 7000)] 7000 := by
  have h := (c2_allocator_lowest
    [sampleRow "r1" "u1" "s1" "ubuntu-desktop" "u1-ubuntu-desktop"
      Status.running (some "cid1") (some 7000)] (by decide)).1 7001 (by decide)
  exact ⟨h.2.2.1, h.2.2.2 7000 (by decide) (by decide)⟩

/-! ## Claim C1 — no duplicate port under concurrent creates -/

/-- Claim C1 is violated by the code: from a fresh registry, two
concurrent `create_container` calls on distinct (user, session, image)
triples can reach a state in which two rows in {creating, running} hold
the same port.  The `SELECT ... FOR UPDATE` of `_find_available_port`
locks only the *existing* running rows with a port — on an empty registry
it locks nothing — and no reservation row is ever written (the comment at
docker_manager.py:344 announces one, but the function just returns), so
both scans run on a registry with no running rows and both return 7000,
which both commits then publish. -/
theorem c1_concurrent_create_duplicate_port :
    ∃ s, SysReaches initSys s ∧ dupActivePort s.reg :=
  ⟨_,
    Relation.ReflTransGen.head (CreateStep.insert Tid.ta initSys rfl)
      (Relation.ReflTransGen.head (CreateStep.insert Tid.tb _ rfl)
      (Relation.ReflTransGen.head (CreateStep.scan Tid.ta _ rfl (by decide))
      (Relation.ReflTransGen.head (CreateStep.scan Tid.tb _ rfl (by decide))
      (Relation.ReflTransGen.head (CreateStep.commitOk Tid.ta _ 7000 rfl (by decide))
      (Relation.ReflTransGen.head (CreateStep.commitOk Tid.tb _ 7000 rfl (by decide))
      Relation.ReflTransGen.refl))))),
    by decide⟩

/-! ## Claim C3 — Create is idempotent on a running row -/

theorem find?_triple_of_running (reg : Registry) (u sid dt : String)
    (row : ContainerRow) (hkey : keyIntegrity reg)
    (hAMO : atMostOneTriple reg u sid dt) (hmem : row ∈ reg)
    (htrip : matchesTriple u sid dt row = true) :
    reg.find? (matchesTriple u sid dt) = some row := by
  have hsome : (reg.find? (matchesTriple u sid dt)).isSome := by
    rw [List.find?_isSome]
    exact ⟨row, hmem, htrip⟩
  obtain ⟨r, hr⟩ := Option.isSome_iff_exists.mp hsome
  have hpr : matchesTriple u sid dt r = true := List.find?_some hr
  have hrmem : r ∈ reg := List.mem_of_find?_eq_some hr
  have hid : r.id = row.id := hAMO r hrmem row hmem hpr htrip
  have : r = row := hkey r hrmem row hmem hid
  rw [hr, this]

/-- Claim C3, confirmed: when the registry has at most one row per triple
and intact primary keys (both hold in every state the code produces), a
`create_container` call whose (user, session, effective desktop type)
triple already has a `running` row returns exactly that row, leaves the
registry unchanged, and performs no action at all — in particular no port
scan, so no port is allocated (docker_manager.py:68-72). -/
theorem c3_create_idempotent_running (reg : Registry)
    (u sid uname : String) (dtOpt : Option String) (env : CreateEnv)
    (row : ContainerRow) (hkey : keyIntegrity reg)
    (hAMO : atMostOneTriple reg u sid (resolve_desktop dtOpt env.kasmImageEnv).2)
    (hmem : row ∈ reg)
    (htrip : matchesTriple u sid (resolve_desktop dtOpt env.kasmImageEnv).2 row = true)
    (hrun : row.status = Status.running) :
    create_container reg u sid uname dtOpt env = (CreateResult.ok row, reg, []) := by
  have hfind := find?_triple_of_running reg u sid
    (resolve_desktop dtOpt env.kasmImageEnv).2 row hkey hAMO hmem htrip
  simp [create_container, hfind, hrun]

/-- Witness for `c3_create_idempotent_running`: a concrete one-row
registry whose row is `running` for the requested triple. -/
theorem c3_create_idempotent_running_witness :
    create_container
        [sampleRow "r1" "u1" "s1" "ubuntu-desktop" "u1-ubuntu-desktop"
          Status.running (some "cid1") (some 7000)]
        "u1" "s1" "alice" (some "ubuntu-desktop")
        { kasmImageEnv := none, containerPortEnv := 6901,
          removeResult := fun _ => EngineRemove.ok,
          startResult := some "inst9", newRowId := "r9", now := 5 } =
      (CreateResult.ok
        (sampleRow "r1" "u1" "s1" "ubuntu-desktop" "u1-ubuntu-desktop"
          Status.running (some "cid1") (some 7000)),
       [sampleRow "r1" "u1" "s1" "ubuntu-desktop" "u1-ubuntu-desktop"
          Status.running (some "cid1") (some 7000)], []) :=
  c3_create_idempotent_running _ _ _ _ _ _ _
    (by decide) (by decide) (by decide) (by decide) (by decide)

/-! ## Claim C4 — stale-row cleanup -/

theorem create_fresh_events (reg : Registry) (u sid dt img cn pp : String)
    (env : CreateEnv) (evs : List Event) :
    ∃ rest, (create_fresh reg u sid dt img cn pp env evs).2.2 =
      evs ++ Event.dbInsertCreating env.newRowId :: rest := by
  rcases hfp : find_available_port (reg ++ [newRowOf u sid dt img cn pp env]) with _ | port
  · refine ⟨[Event.scanPorts, Event.dbMarkError env.newRowId], ?_⟩
    simp only [create_fresh]
    rw [hfp]
    simp [newRowOf]
  · rcases hsr : env.startResult with _ | instId
    · refine ⟨[Event.scanPorts, Event.engineStart cn, Event.dbMarkError env.newRowId], ?_⟩
      simp only [create_fresh]
      rw [hfp, hsr]
      simp [newRowOf]
    · refine ⟨[Event.scanPorts, Event.engineStart cn, Event.dbCommitRunning env.newRowId], ?_⟩
      simp only [create_fresh]
      rw [hfp, hsr]
      simp [newRowOf]

theorem atMostOne_map_append (u sid dt : String) (reg : Registry)
    (newRow : ContainerRow) (f : ContainerRow → ContainerRow)
    (htr : ∀ c, matchesTriple u sid dt (f c) = matchesTriple u sid dt c)
    (h0 : ∀ c ∈ reg, matchesTriple u sid dt c = false) :
    atMostOneTriple (List.map f (reg ++ [newRow])) u sid dt := by
  intro c1 h1 c2 h2 m1 m2
  simp only [List.mem_map, List.mem_append, List.mem_singleton] at h1 h2
  obtain ⟨a1, ha1, rfl⟩ := h1
  obtain ⟨a2, ha2, rfl⟩ := h2
  rcases ha1 with ha1 | rfl
  · rw [htr a1] at m1
    rw [h0 a1 ha1] at m1
    exact absurd m1 (by simp)
  · rcases ha2 with ha2 | rfl
    · rw [htr a2] at m2
      rw [h0 a2 ha2] at m2
      exact absurd m2 (by simp)
    · rfl

theorem markError_preserves_triple (u sid dt rowId : String) (c : ContainerRow) :
    matchesTriple u sid dt (if c.id = rowId then { c with status := Status.error } else c) =
      matchesTriple u sid dt c := by
  by_cases h : c.id = rowId <;> simp [h, matchesTriple]

theorem commitRunning_preserves_triple (u sid dt rowId instId : String)
    (port now : Nat) (c : ContainerRow) :
    matchesTriple u sid dt
        (if c.id = rowId then
          { c with containerId := some instId, hostPort := some port,
                   status := Status.running, startedAt := some now }
        else c) = matchesTriple u sid dt c := by
  by_cases h : c.id = rowId <;> simp [h, matchesTriple]

theorem create_fresh_atMostOne (reg : Registry) (u sid dt img cn pp : String)
    (env : CreateEnv) (evs : List Event)
    (h0 : ∀ c ∈ reg, matchesTriple u sid dt c = false) :
    atMostOneTriple (create_fresh reg u sid dt img cn pp env evs).2.1 u sid dt := by
  rcases hfp : find_available_port (reg ++ [newRowOf u sid dt img cn pp env]) with _ | port
  · have : (create_fresh reg u sid dt img cn pp env evs).2.1 =
        markError (reg ++ [newRowOf u sid dt img cn pp env]) env.newRowId := by
      simp only [create_fresh]
      rw [hfp]
      rfl
    rw [this]
    exact atMostOne_map_append u sid dt reg _ _
      (fun c => markError_preserves_triple u sid dt env.newRowId c) h0
  · rcases hsr : env.startResult with _ | instId
    · have : (create_fresh reg u sid dt img cn pp env evs).2.1 =
          markError (reg ++ [newRowOf u sid dt img cn pp env]) env.newRowId := by
        simp only [create_fresh]
        rw [hfp, hsr]
        rfl
      rw [this]
      exact atMostOne_map_append u sid dt reg _ _
        (fun c => markError_preserves_triple u sid dt env.newRowId c) h0
    · have : (create_fresh reg u sid dt img cn pp env evs).2.1 =
          commitRunning (reg ++ [newRowOf u sid dt img cn pp env]) env.newRowId
            instId port env.now := by
        simp only [create_fresh]
        rw [hfp, hsr]
        rfl
      rw [this]
      exact atMostOne_map_append u sid dt reg _ _
        (fun c => commitRunning_preserves_triple u sid dt env.newRowId instId
          port env.now c) h0

/-- Claim C4, confirmed: for a triple whose existing row is in
{stopped, error, creating}, `create_container` removes the engine instance
first and deletes the registry row only afterwards, before any new row is
inserted (docker_manager.py:74-105); when the engine-side removal raises,
the call aborts with the cleanup error, the registry — including the old
row — is untouched, and the only action taken was the engine removal; and
the at-most-one-row-per-triple invariant is preserved in every case. -/
theorem c4_stale_cleanup (reg : Registry) (u sid uname : String)
    (dtOpt : Option String) (env : CreateEnv) (ex : ContainerRow) (cid : String)
    (hfind : reg.find?
      (matchesTriple u sid (resolve_desktop dtOpt env.kasmImageEnv).2) = some ex)
    (hst : ex.status = Status.error ∨ ex.status = Status.stopped ∨
      ex.status = Status.creating)
    (hcid : ex.containerId = some cid) :
    (env.removeResult cid = EngineRemove.failed →
      create_container reg u sid uname dtOpt env =
        (CreateResult.err CreateErr.cleanupFailed, reg, [Event.engineRemove cid])) ∧
    (env.removeResult cid ≠ EngineRemove.failed →
      ∃ rest, (create_container reg u sid uname dtOpt env).2.2 =
        Event.engineRemove cid :: Event.dbDelete ex.id ::
          Event.dbInsertCreating env.newRowId :: rest) ∧
    (atMostOneTriple reg u sid (resolve_desktop dtOpt env.kasmImageEnv).2 →
      atMostOneTriple (create_container reg u sid uname dtOpt env).2.1 u sid
        (resolve_desktop dtOpt env.kasmImageEnv).2) := by
  have hnr : ¬ ex.status = Status.running := by
    rcases hst with h | h | h <;> simp [h]
  have hred : create_container reg u sid uname dtOpt env =
      match env.removeResult cid with
      | EngineRemove.failed =>
        (CreateResult.err CreateErr.cleanupFailed, reg, [Event.engineRemove cid])
      | _ =>
        create_fresh (reg.filter (fun c => decide (¬ c.id = ex.id))) u sid
          (resolve_desktop dtOpt env.kasmImageEnv).2
          (resolve_desktop dtOpt env.kasmImageEnv).1
          ("kasm-" ++ uname ++ "-" ++ (resolve_desktop dtOpt env.kasmImageEnv).2
            ++ "-" ++ (sid.take 8))
          (uname ++ "-" ++ (resolve_desktop dtOpt env.kasmImageEnv).2) env
          [Event.engineRemove cid, Event.dbDelete ex.id] := by
    simp only [create_container, hfind]
    rw [if_neg hnr, if_pos hst]
    simp only [hcid]
  have hmem : ex ∈ reg := List.mem_of_find?_eq_some hfind
  have hptr : matchesTriple u sid (resolve_desktop dtOpt env.kasmImageEnv).2 ex = true :=
    List.find?_some hfind
  refine ⟨?_, ?_, ?_⟩
  · intro hfail
    rw [hred, hfail]
  · intro hne
    rcases hrm : env.removeResult cid with _ | _ | _
    · rw [hred, hrm]
      exact create_fresh_events _ _ _ _ _ _ _ _ _
    · rw [hred, hrm]
      exact create_fresh_events _ _ _ _ _ _ _ _ _
    · exact absurd hrm hne
  · intro hAMO
    have h0 : ∀ c ∈ reg.filter (fun c => decide (¬ c.id = ex.id)),
        matchesTriple u sid (resolve_desktop dtOpt env.kasmImageEnv).2 c = false := by
      intro c hc
      rw [List.mem_filter] at hc
      obtain ⟨hcreg, hcid2⟩ := hc
      have hne2 : ¬ c.id = ex.id := of_decide_eq_true hcid2
      rcases Bool.eq_false_or_eq_true
        (matchesTriple u sid (resolve_desktop dtOpt env.kasmImageEnv).2 c) with hb | hb
      · exact absurd (hAMO c hcreg ex hmem hb hptr) hne2
      · exact hb
    rcases hrm : env.removeResult cid with _ | _ | _
    · rw [hred, hrm]
      exact create_fresh_atMostOne _ _ _ _ _ _ _ _ _ h0
    · rw [hred, hrm]
      exact create_fresh_atMostOne _ _ _ _ _ _ _ _ _ h0
    · rw [hred, hrm]
      exact hAMO

/-- Witness for `c4_stale_cleanup`: a stopped row whose engine-side
removal fails — `create_container` aborts, keeps the registry unchanged,
and its only action was the attempted engine removal. -/
theorem c4_stale_cleanup_witness :
    create_container
        [sampleRow "r1" "u1" "s1" "ubuntu-desktop" "u1-ubuntu-desktop"
          Status.stopped (some "cid1") (some 7000)]
        "u1" "s1" "alice" (some "ubuntu-desktop")
        { kasmImageEnv := none, containerPortEnv := 6901,
          removeResult := fun _ => EngineRemove.failed,
          startResult := some "inst9", newRowId := "r9", now := 5 } =
      (CreateResult.err CreateErr.cleanupFailed,
       [sampleRow "r1" "u1" "s1" "ubuntu-desktop" "u1-ubuntu-desktop"
          Status.stopped (some "cid1") (some 7000)],
       [Event.engineRemove "cid1"]) :=
  (c4_stale_cleanup
    [sampleRow "r1" "u1" "s1" "ubuntu-desktop" "u1-ubuntu-desktop"
      Status.stopped (some "cid1") (some 7000)]
    "u1" "s1" "alice" (some "ubuntu-desktop")
    { kasmImageEnv := none, containerPortEnv := 6901,
      removeResult := fun _ => EngineRemove.failed,
      startResult := some "inst9", newRowId := "r9", now := 5 }
    (sampleRow "r1" "u1" "s1" "ubuntu-desktop" "u1-ubuntu-desktop"
      Status.stopped (some "cid1") (some 7000))
    "cid1" (by decide) (Or.inr (Or.inl (by decide))) (by decide)).1 (by decide)

/-! ## Claim C5 — reconciliation transitions -/

/-- Claim C5 fails as stated, on both counts.  A `running` row whose
engine reports `exited` is moved to `stopped`, not to `error`
(docker_manager.py:275-278), and a `creating` row whose engine reports
`dead` is moved directly to `stopped`, the transition §4.2 forbids. -/
theorem c5_counterexample_reconcile_stopped :
    (get_container_status
        (sampleRow "r1" "u1" "s1" "ubuntu-desktop" "u1-ubuntu-desktop"
          Status.running (some "cid1") (some 7000)) (some "exited") 9).status =
      Status.stopped ∧
    Status.stopped ≠ Status.error ∧
    (get_container_status
        (sampleRow "r2" "u2" "s2" "ubuntu-desktop" "u2-ubuntu-desktop"
          Status.creating (some "cid2") none) (some "dead") 9).status =
      Status.stopped := by
  refine ⟨by decide, by decide, by decide⟩

/-- Claim C5 (amended): reconciliation maps an engine report of
exited/dead on any non-stopped row — `running` and `creating` alike — to
`stopped` (stamping `stopped_at`), maps an absent engine instance to
`stopped`, and never moves any row *to* `error`: a reconciled row is
`error` only if it already was. -/
theorem c5_reconcile_transitions (row : ContainerRow) (now : Nat) :
    (∀ ds, row.containerId ≠ none → ¬ row.status = Status.stopped →
      (ds = "exited" ∨ ds = "dead") →
      (get_container_status row (some ds) now).status = Status.stopped ∧
        (get_container_status row (some ds) now).stoppedAt = some now) ∧
    (row.containerId ≠ none →
      (get_container_status row none now).status = Status.stopped) ∧
    (∀ inspected, (get_container_status row inspected now).status = Status.error →
      row.status = Status.error) := by
  refine ⟨?_, ?_, ?_⟩
  · intro ds hcid hns hde
    have hdr : ¬ ds = "running" := by
      rcases hde with h | h <;> simp [h]
    rcases hc : row.containerId with _ | cid
    · exact absurd hc hcid
    · simp [get_container_status, hc, hdr, hde, hns]
  · intro hcid
    rcases hc : row.containerId with _ | cid
    · exact absurd hc hcid
    · simp [get_container_status, hc]
  · intro inspected h
    rcases hc : row.containerId with _ | cid
    · simpa [get_container_status, hc] using h
    · rcases inspected with _ | ds
      · simp [get_container_status, hc] at h
      · by_cases h1 : ds = "running" ∧ row.status ≠ Status.running
        · simp [get_container_status, hc, h1] at h
        · by_cases h2 : (ds = "exited" ∨ ds = "dead") ∧ row.status ≠ Status.stopped
          · simp [get_container_status, hc, h1, h2] at h
          · simpa [get_container_status, hc, h1, h2] using h

/-- Witness for `c5_reconcile_transitions`: a concrete `running` row with
an engine id, reported `exited`, ends `stopped` with `stopped_at` set. -/
theorem c5_reconcile_transitions_witness :
    (get_container_status
        (sampleRow "r1" "u1" "s1" "ubuntu-desktop" "u1-ubuntu-desktop"
          Status.running (some "cid1") (some 7000)) (some "exited") 9).status =
      Status.stopped ∧
    (get_container_status
        (sampleRow "r1" "u1" "s1" "ubuntu-desktop" "u1-ubuntu-desktop"
          Status.running (some "cid1") (some 7000)) (some "exited") 9).stoppedAt =
      some 9 :=
  (c5_reconcile_transitions
    (sampleRow "r1" "u1" "s1" "ubuntu-desktop" "u1-ubuntu-desktop"
      Status.running (some "cid1") (some 7000)) 9).1 "exited"
    (by decide) (by decide) (Or.inl rfl)

/-! ## Claim C6 — route resolution order -/

/-- Claim C6 fails as stated: the claimed order for asset-like requests is
Host subdomain first, "first match wins".  But in `proxy_websocket_root`
the Referer block runs even after a subdomain hit and assigns its own
lookup result unconditionally (proxy_routes.py:372-395): with a Host
subdomain naming alice's running container and a Referer naming bob's,
the resolver returns bob's container, not the first (Host) match. -/
theorem c6_counterexample_referer_overrides_host :
    subdomainLookup
        [sampleRow "rA" "uA" "sA" "ubuntu-desktop" "alice-ubuntu-desktop"
          Status.running (some "cidA") (some 7001),
         sampleRow "rB" "uB" "sB" "ubuntu-desktop" "bob-ubuntu-desktop"
          Status.running (some "cidB") (some 7002)]
        "alice-ubuntu-desktop.desktop.hub.mdg-hamburg.de" =
      some (sampleRow "rA" "uA" "sA" "ubuntu-desktop" "alice-ubuntu-desktop"
        Status.running (some "cidA") (some 7001)) ∧
    resolve_ws_root
        [sampleRow "rA" "uA" "sA" "ubuntu-desktop" "alice-ubuntu-desktop"
          Status.running (some "cidA") (some 7001),
         sampleRow "rB" "uB" "sB" "ubuntu-desktop" "bob-ubuntu-desktop"
          Status.running (some "cidB") (some 7002)]
        "alice-ubuntu-desktop.desktop.hub.mdg-hamburg.de"
        "https://hub.example/desktop/bob-ubuntu-desktop" none =
      WsResolve.resolved
        (sampleRow "rB" "uB" "sB" "ubuntu-desktop" "bob-ubuntu-desktop"
          Status.running (some "cidB") (some 7002)) ∧
    sampleRow "rA" "uA" "sA" "ubuntu-desktop" "alice-ubuntu-desktop"
        Status.running (some "cidA") (some 7001) ≠
      sampleRow "rB" "uB" "sB" "ubuntu-desktop" "bob-ubuntu-desktop"
        Status.running (some "cidB") (some 7002) := by
  refine ⟨by decide, by decide, by decide⟩

/-- Claim C6 (amended): in the path route, a non-asset segment is resolved
by the direct `proxy_path` lookup alone (a hit rewrites the sticky hint,
a miss is 404 with no fallback); an asset-like segment falls back, on a
direct miss, to the Referer segment (if not itself asset-like) and then
the sticky hint, never rewriting the hint, and the Host header is never
consulted; in the root websockify route, a Referer embedding a non-asset
segment decides the resolution by itself — the Host subdomain result is
discarded whatever it was. -/
theorem c6_resolver_behavior :
    (∀ (reg : Registry) (req : HttpReq), is_asset_path req.proxyPath = false →
      resolve_http reg req =
        match get_by_proxy_path reg req.proxyPath with
        | none => HttpResolve.notFound
        | some c =>
          if c.hostPort = none then HttpResolve.noPort c
          else HttpResolve.resolved c req.subpath (some c.proxyPath)) ∧
    (∀ (reg : Registry) (req : HttpReq) (c : ContainerRow),
      is_asset_path req.proxyPath = true →
      get_by_proxy_path reg req.proxyPath = some c →
      resolve_http reg req =
        (if c.hostPort = none then HttpResolve.noPort c
         else HttpResolve.resolved c req.subpath req.hint)) ∧
    (∀ (reg : Registry) (req : HttpReq), is_asset_path req.proxyPath = true →
      get_by_proxy_path reg req.proxyPath = none →
      resolve_http reg req =
        match (match refererLookup reg req.referer with
               | some c => some c
               | none =>
                 match req.hint with
                 | some h => if h = "" then none else get_by_proxy_path reg h
                 | none => none) with
        | none => HttpResolve.notFound
        | some c =>
          if c.hostPort = none then HttpResolve.noPort c
          else HttpResolve.resolved c
            (if req.subpath = "" then req.proxyPath
             else req.proxyPath ++ "/" ++ req.subpath) req.hint) ∧
    (∀ (reg : Registry) (host referer : String) (hint : Option String)
        (seg : List Char),
      referer ≠ "" → ¬ referer.length > 2048 →
      searchDesktopSeg referer.toList = some seg →
      ¬ (String.mk seg).length > 255 →
      is_asset_path (String.mk seg) = false →
      resolve_ws_root reg host referer hint =
        resolve_ws_root reg "" referer hint) := by
  refine ⟨?_, ?_, ?_, ?_⟩
  · intro reg req ha
    rcases hd : get_by_proxy_path reg req.proxyPath with _ | c
    · simp [resolve_http, hd, ha]
    · simp [resolve_http, hd, ha]
  · intro reg req c ha hd
    simp [resolve_http, hd, ha]
  · intro reg req ha hd
    rcases hr : refererLookup reg req.referer with _ | c1
    · rcases hh : req.hint with _ | h0
      · simp [resolve_http, hd, ha, hr, hh]
      · by_cases h0e : h0 = ""
        · simp [resolve_http, hd, ha, hr, hh, h0e]
        · rcases hl : get_by_proxy_path reg h0 with _ | c2
          · simp [resolve_http, hd, ha, hr, hh, h0e, hl]
          · simp [resolve_http, hd, ha, hr, hh, h0e, hl]
    · simp [resolve_http, hd, ha, hr]
  · intro reg host referer hint seg href hlen hseg hseglen hsegasset
    have hseg2 : searchDesktopSeg referer.data = some seg := hseg
    have hseglen2 : ¬ 255 < seg.length := by
      simpa [String.length] using hseglen
    simp [resolve_ws_root, href, hlen, hseg2, hseglen2, hsegasset]

/-- Witness for `c6_resolver_behavior`: its websockify part applied at the
inputs of the counterexample scenario — with a non-asset Referer segment
present, the Host header has no influence on the result. -/
theorem c6_resolver_behavior_witness :
    resolve_ws_root
        [sampleRow "rA" "uA" "sA" "ubuntu-desktop" "alice-ubuntu-desktop"
          Status.running (some "cidA") (some 7001),
         sampleRow "rB" "uB" "sB" "ubuntu-desktop" "bob-ubuntu-desktop"
          Status.running (some "cidB") (some 7002)]
        "alice-ubuntu-desktop.desktop.hub.mdg-hamburg.de"
        "https://hub.example/desktop/bob-ubuntu-desktop" none =
      resolve_ws_root
        [sampleRow "rA" "uA" "sA" "ubuntu-desktop" "alice-ubuntu-desktop"
          Status.running (some "cidA") (some 7001),
         sampleRow "rB" "uB" "sB" "ubuntu-desktop" "bob-ubuntu-desktop"
          Status.running (some "cidB") (some 7002)]
        "" "https://hub.example/desktop/bob-ubuntu-desktop" none :=
  (c6_resolver_behavior).2.2.2
    [sampleRow "rA" "uA" "sA" "ubuntu-desktop" "alice-ubuntu-desktop"
      Status.running (some "cidA") (some 7001),
     sampleRow "rB" "uB" "sB" "ubuntu-desktop" "bob-ubuntu-desktop"
      Status.running (some "cidB") (some 7002)]
    "alice-ubuntu-desktop.desktop.hub.mdg-hamburg.de"
    "https://hub.example/desktop/bob-ubuntu-desktop" none
    ("bob-ubuntu-desktop".toList) (by decide) (by decide) (by decide)
    (by decide) (by decide)

/-! ## Claim C7 — forwarder retry tiers and error mapping -/

/-- Claim C7, confirmed (booting tier modelled from the spec and its
in-tree test, see `CONTAINER_STARTUP_RETRIES`): the booting tier allows
more attempts than the generic transient tier (5 against 3) and waits
longer in total (2+4+8+16 = 30 s against 0.3+0.6+1.2 = 2.1 s); when every
attempt shows the reset signature the tier exhausts and the probed live
status decides — any probed status other than `running` gives the 503
"not running" page and a probed `running` (or a failed probe) gives the
503 "starting" page; a timeout gives 504 and any other request error 502
(proxy_routes.py:252-279). -/
theorem c7_booting_tier :
    DEFAULT_RETRIES < CONTAINER_STARTUP_RETRIES ∧
    genericBackoffTenths.sum < startupBackoffTenths.sum ∧
    startupBackoffTenths.sum = 300 ∧
    (∀ probed, forward_request (fun _ => Attempt.connReset) probed =
      probe503 probed) ∧
    (∀ st, st ≠ Status.running → probe503 (some st) = ProxyResult.notRunning503) ∧
    probe503 (some Status.running) = ProxyResult.starting503 ∧
    probe503 none = ProxyResult.starting503 ∧
    (∀ rest probed, forward_with_startup_retry (Attempt.timeout :: rest) probed =
      ProxyResult.timeout504) ∧
    (∀ rest probed, forward_with_startup_retry (Attempt.otherError :: rest) probed =
      ProxyResult.gateway502) := by
  refine ⟨by decide, by decide, by decide, ?_, ?_, by decide, by decide, ?_, ?_⟩
  · intro probed
    rcases probed with _ | st
    · rfl
    · rcases st with _ | _ | _ | _ <;> rfl
  · intro st h
    simp [probe503, h]
  · intro rest probed
    simp [forward_with_startup_retry]
  · intro rest probed
    simp [forward_with_startup_retry]

/-- Witness for `c7_booting_tier`: the probe of an exhausted booting tier
on a container reconciled to `stopped` yields the 503 "not running"
page. -/
theorem c7_booting_tier_witness :
    probe503 (some Status.stopped) = ProxyResult.notRunning503 :=
  c7_booting_tier.2.2.2.2.1 Status.stopped (by decide)

/-! ## Claim C8 — backend handshake acceptance -/

theorem read_handshake_accepted_has101 : ∀ (chunks : List (List Char))
    (acc resp : List Char),
    read_handshake chunks acc = HandshakeResult.accepted resp →
    infixB ("101".toList) (beforeFirst ['\r', '\n'] resp) = true := by
  intro chunks
  induction chunks with
  | nil =>
    intro acc resp h
    rw [read_handshake] at h
    by_cases ht : infixB crlfcrlf acc = true
    · rw [if_pos ht] at h
      unfold checkUpgradeStatus at h
      by_cases h101 : infixB ("101".toList) (beforeFirst ['\r', '\n'] acc) = true
      · rw [if_pos h101] at h
        cases h
        exact h101
      · rw [if_neg h101] at h
        cases h
    · rw [if_neg ht] at h
      cases h
  | cons chunk rest ih =>
    intro acc resp h
    rw [read_handshake] at h
    by_cases ht : infixB crlfcrlf acc = true
    · rw [if_pos ht] at h
      unfold checkUpgradeStatus at h
      by_cases h101 : infixB ("101".toList) (beforeFirst ['\r', '\n'] acc) = true
      · rw [if_pos h101] at h
        cases h
        exact h101
      · rw [if_neg h101] at h
        cases h
    · rw [if_neg ht] at h
      by_cases he : chunk.isEmpty = true
      · rw [if_pos he] at h
        cases h
      · rw [if_neg he] at h
        by_cases hl : (acc ++ chunk).length > MAX_HANDSHAKE_SIZE
        · rw [if_pos hl] at h
          cases h
        · rw [if_neg hl] at h
          exact ih (acc ++ chunk) resp h

/-- Claim C8 fails in its "only a 101 status line is accepted" part: the
acceptance test is `b"101" in response_status` (proxy_routes.py:618), a
substring check on the whole status line.  A backend answering status 503
with a reason phrase containing `101` is accepted and the relay loops are
started, although the status is not 101. -/
theorem c8_counterexample_substring_101 :
    read_handshake [("HTTP/1.1 503 Service Unavailable x101\r\n\r\n".toList)] [] =
      HandshakeResult.accepted
        ("HTTP/1.1 503 Service Unavailable x101\r\n\r\n".toList) ∧
    specStatusCode
        (beforeFirst ['\r', '\n']
          ("HTTP/1.1 503 Service Unavailable x101\r\n\r\n".toList)) =
      "503".toList ∧
    "503".toList ≠ "101".toList := by
  refine ⟨by decide, by decide, by decide⟩

/-- Claim C8 (amended): the handshake loop reads only until the header
terminator; a response whose accumulated size exceeds the 8192-byte cap
aborts with the handshake-too-large close (1009); once the terminator is
present, the tunnel starts the relay loops only when the status line
contains the substring `101` — any response whose status line lacks that
substring is closed towards the client with the protocol-error code
(1002) and no relay loop ever starts.  (A true 101 status line always
contains the substring, but so do some non-101 lines, whence the
counterexample.) -/
theorem c8_handshake_acceptance :
    (∀ (chunks : List (List Char)) (acc resp : List Char),
      read_handshake chunks acc = HandshakeResult.accepted resp →
      infixB ("101".toList) (beforeFirst ['\r', '\n'] resp) = true) ∧
    (∀ (chunks : List (List Char)) (acc : List Char),
      infixB crlfcrlf acc = true →
      infixB ("101".toList) (beforeFirst ['\r', '\n'] acc) = false →
      read_handshake chunks acc = HandshakeResult.rejected) ∧
    (∀ (chunk : List Char) (rest : List (List Char)) (acc : List Char),
      infixB crlfcrlf acc = false → chunk.isEmpty = false →
      (acc ++ chunk).length > MAX_HANDSHAKE_SIZE →
      read_handshake (chunk :: rest) acc = HandshakeResult.closeTooLarge) := by
  refine ⟨read_handshake_accepted_has101, ?_, ?_⟩
  · intro chunks acc ht h101
    have h101b : infixB ['1', '0', '1'] (beforeFirst ['\r', '\n'] acc) = false := h101
    rw [read_handshake.eq_def, if_pos ht]
    simp [checkUpgradeStatus, h101b]
  · intro chunk rest acc ht he hl
    rw [read_handshake.eq_def, if_neg (by simp [ht])]
    simp only []
    rw [if_neg (by simp [he]), if_pos hl]

/-- Witness for `c8_handshake_acceptance`: a complete 404 response is
rejected (protocol-error close, no relay), and an oversized first chunk
without a terminator aborts with the too-large close. -/
theorem c8_handshake_acceptance_witness :
    read_handshake [] ("HTTP/1.1 404 Not Found\r\n\r\n".toList) =
      HandshakeResult.rejected ∧
    read_handshake [List.replicate 8300 'x'] [] =
      HandshakeResult.closeTooLarge :=
  ⟨c8_handshake_acceptance.2.1 [] ("HTTP/1.1 404 Not Found\r\n\r\n".toList)
      (by decide) (by decide),
   c8_handshake_acceptance.2.2 (List.replicate 8300 'x') [] []
      (by decide) (by rfl)
      (by simp only [List.nil_append, List.length_replicate, MAX_HANDSHAKE_SIZE]
          omega)⟩

/-! ## Claim C9 — serialized public shape -/

/-- Claim C9 fails as stated: `Container.to_dict` (containers.py:51-62) —
the serializer used by every provisioning route — does include both the
engine instance id (key `container_id`) and the raw host port (key
`host_port`). -/
theorem c9_counterexample_to_dict_exposes :
    ("container_id", DictVal.str "dockerid77") ∈
      Container.to_dict
        (sampleRow "r1" "u1" "s1" "ubuntu-desktop" "u1-ubuntu-desktop"
          Status.running (some "dockerid77") (some 7005)) ∧
    ("host_port", DictVal.nat 7005) ∈
      Container.to_dict
        (sampleRow "r1" "u1" "s1" "ubuntu-desktop" "u1-ubuntu-desktop"
          Status.running (some "dockerid77") (some 7005)) := by
  refine ⟨by decide, by decide⟩

/-- Claim C9 (amended): the serialized shape of every container consists
of exactly the keys id, container_id, container_name, status, host_port,
created_at, started_at, last_accessed — so it does expose the engine
instance id and the raw host port, and the user/session ids and
`proxy_path` are the fields it omits. -/
theorem c9_to_dict_shape (c : ContainerRow) :
    (Container.to_dict c).map Prod.fst =
      ["id", "container_id", "container_name", "status", "host_port",
       "created_at", "started_at", "last_accessed"] ∧
    ("container_id", optVal DictVal.str c.containerId) ∈ Container.to_dict c ∧
    ("host_port", optVal DictVal.nat c.hostPort) ∈ Container.to_dict c := by
  refine ⟨rfl, ?_, ?_⟩ <;> simp [Container.to_dict]

/-! ## Claim C10 — read path writes `last_accessed` first -/

theorem touch_erase (reg : Registry) (i : String) (n : Nat) :
    (touch reg i n).map eraseLastAccessed = reg.map eraseLastAccessed := by
  unfold touch
  rw [List.map_map]
  apply List.map_congr_left
  intro a _
  by_cases h : a.id = i <;> simp [h, Function.comp, eraseLastAccessed]

theorem touch_lastAccessed (reg : Registry) (i : String) (n : Nat) :
    ∀ r ∈ touch reg i n, r.id = i → r.lastAccessed = n := by
  intro r hr hid
  unfold touch at hr
  rw [List.mem_map] at hr
  obtain ⟨a, _, rfl⟩ := hr
  by_cases h : a.id = i
  · simp [h]
  · rw [if_neg h] at hid ⊢
    exact absurd hid h

theorem get_container_status_frame (row : ContainerRow)
    (inspected : Option String) (now : Nat) :
    (get_container_status row inspected now).id = row.id ∧
      (get_container_status row inspected now).lastAccessed = row.lastAccessed := by
  rcases hc : row.containerId with _ | cid
  · simp [get_container_status, hc]
  · rcases inspected with _ | ds
    · simp [get_container_status, hc]
    · by_cases h1 : ds = "running" ∧ row.status ≠ Status.running
      · simp [get_container_status, hc, h1]
      · by_cases h2 : (ds = "exited" ∨ ds = "dead") ∧ row.status ≠ Status.stopped
        · simp [get_container_status, hc, h1, h2]
        · simp [get_container_status, hc, h1, h2]

/-- Claim C10 fails in its frame part: on the HTTP forwarder's
connection-failure path the status probe *reconciles* the row
(proxy_routes.py:254-258 calling docker_manager.py:253-294), so fields
other than `last_accessed` can change — here a `running` row whose engine
reports `exited` comes back `stopped` with `stopped_at` stamped.  The
`last_accessed` refresh itself did happen before the backend contact. -/
theorem c10_counterexample_probe_writes_status :
    (http_forward_effects
        [sampleRow "r1" "u1" "s1" "ubuntu-desktop" "u1-ubuntu-desktop"
          Status.running (some "cid1") (some 7000)]
        (sampleRow "r1" "u1" "s1" "ubuntu-desktop" "u1-ubuntu-desktop"
          Status.running (some "cid1") (some 7000)) 9
        Attempt.connError (some "exited")).1.map eraseLastAccessed ≠
      [sampleRow "r1" "u1" "s1" "ubuntu-desktop" "u1-ubuntu-desktop"
        Status.running (some "cid1") (some 7000)].map eraseLastAccessed ∧
    (http_forward_effects
        [sampleRow "r1" "u1" "s1" "ubuntu-desktop" "u1-ubuntu-desktop"
          Status.running (some "cid1") (some 7000)]
        (sampleRow "r1" "u1" "s1" "ubuntu-desktop" "u1-ubuntu-desktop"
          Status.running (some "cid1") (some 7000)) 9
        Attempt.connError (some "exited")).1.map ContainerRow.status =
      [Status.stopped] := by
  refine ⟨by decide, by decide⟩

/-- Claim C10 (amended): all three read-path handlers commit the
`last_accessed` refresh strictly before contacting the backend, so the
refresh survives any later 503/504/502 or aborted tunnel; the WebSocket
handlers touch no other registry field; the HTTP forwarder touches no
other field on success, timeout and other-error outcomes, but its
connection-failure path runs the reconciliation probe, which may rewrite
the row's lifecycle fields (see the counterexample). -/
theorem c10_last_accessed_first (reg : Registry) (c : ContainerRow) (now : Nat) :
    (∀ outcome inspected, ∃ rest,
      (http_forward_effects reg c now outcome inspected).2 =
        AccessEvent.writeLastAccessed c.id :: AccessEvent.contactBackend :: rest) ∧
    (∀ outcome inspected,
      ∀ r ∈ (http_forward_effects reg c now outcome inspected).1,
        r.id = c.id → r.lastAccessed = now) ∧
    ((ws_touch_effects reg c now).2 =
      [AccessEvent.writeLastAccessed c.id, AccessEvent.contactBackend]) ∧
    ((ws_touch_effects reg c now).1.map eraseLastAccessed =
      reg.map eraseLastAccessed) ∧
    (∀ r ∈ (ws_touch_effects reg c now).1, r.id = c.id → r.lastAccessed = now) ∧
    (∀ sc inspected,
      (http_forward_effects reg c now (Attempt.success sc) inspected).1.map
        eraseLastAccessed = reg.map eraseLastAccessed) ∧
    (∀ inspected,
      (http_forward_effects reg c now Attempt.timeout inspected).1.map
        eraseLastAccessed = reg.map eraseLastAccessed) ∧
    (∀ inspected,
      (http_forward_effects reg c now Attempt.otherError inspected).1.map
        eraseLastAccessed = reg.map eraseLastAccessed) := by
  refine ⟨?_, ?_, rfl, touch_erase reg c.id now, touch_lastAccessed reg c.id now,
    ?_, ?_, ?_⟩
  · intro outcome inspected
    rcases outcome with sc | _ | _ | _ | _ <;> exact ⟨_, rfl⟩
  · intro outcome inspected r hr hid
    rcases outcome with sc | _ | _ | _ | _
    · exact touch_lastAccessed reg c.id now r hr hid
    all_goals first
      | (exact touch_lastAccessed reg c.id now r hr hid)
      | (simp only [http_forward_effects, List.mem_map] at hr
         obtain ⟨a, ha, rfl⟩ := hr
         by_cases h : a.id = c.id
         · rw [if_pos h]
           rw [(get_container_status_frame a inspected now).2]
           exact touch_lastAccessed reg c.id now a ha h
         · rw [if_neg h] at hid ⊢
           exact absurd hid h)
  · intro sc inspected
    exact touch_erase reg c.id now
  · intro inspected
    exact touch_erase reg c.id now
  · intro inspected
    exact touch_erase reg c.id now

/-- Witness for `c10_last_accessed_first`: on the concrete
connection-error scenario of the counterexample, the row still carries
the refreshed `last_accessed`. -/
theorem c10_last_accessed_first_witness :
    (get_container_status
        ({ sampleRow "r1" "u1" "s1" "ubuntu-desktop" "u1-ubuntu-desktop"
            Status.running (some "cid1") (some 7000) with lastAccessed := 9 })
        (some "exited") 9).lastAccessed = 9 :=
  (c10_last_accessed_first
    [sampleRow "r1" "u1" "s1" "ubuntu-desktop" "u1-ubuntu-desktop"
      Status.running (some "cid1") (some 7000)]
    (sampleRow "r1" "u1" "s1" "ubuntu-desktop" "u1-ubuntu-desktop"
      Status.running (some "cid1") (some 7000)) 9).2.1
    Attempt.connError (some "exited") _ (by decide) (by decide)
